import Mathlib

/-!
Shallow embedding of src/environment/racing_car.py.

The module drives a physical RC car as a reinforcement-learning
environment.  Numeric values (Python floats / numpy floats) are modelled
as rationals; the numeric constant np.pi is an abstract rational
parameter piQ threaded through the event handler, so every theorem about
the speed formula holds for whatever approximation of pi the runtime
uses.  The
external collaborators (pigpio PWM output, picamera frames) are modelled
at their interface: a PWM actuation call becomes a value of type
PwmCommand, and the list of calls issued by an operation is returned
alongside the new state.  GPIO events reach the handler as a pin number
together with an edge kind.
-/

namespace RacingCar

/-- Pin configuration from RacingCar.__init__. -/
def STEERING_SERVO_PIN : ℕ := 4

def MOTOR_PIN : ℕ := 17

def LEFT_LINE_SENSOR_PIN : ℕ := 1

def RIGHT_LINE_SENSOR_PIN : ℕ := 2

def ENCODER_DIR_PIN : ℕ := 12

def ENCODER_PUL_PIN : ℕ := 12

def ENCODER_ZERO_PIN : ℕ := 13

/-- Hardware configuration from RacingCar.__init__ (self._TIRE_DIAMETER = 0.05). -/
def TIRE_DIAMETER : ℚ := 5 / 100

/-- self._GEAR_RATIO = 145 / 35 (Python true division). -/
def GEAR_RATIO : ℚ := 145 / 35

/-- self._ENCODER_LINE = 512. -/
def ENCODER_LINE : ℚ := 512

/-- self._SERVO_RANGE = 200. -/
def SERVO_RANGE : ℚ := 200

/-- self._MOTOR_RANGE = 500. -/
def MOTOR_RANGE : ℚ := 500

/-- self._SPEED_UPDATE_INTERVAL = 500 (milliseconds, watchdog on the encoder pulse pin). -/
def SPEED_UPDATE_INTERVAL : ℚ := 500

/-- self._REWARD_UPDATE_INTERVAL = 500 (milliseconds, watchdog on the lap marker pin). -/
def REWARD_UPDATE_INTERVAL : ℚ := 500

/-- The edge kind delivered by the GPIO subsystem to the callback:
a rising edge, a falling edge, or a watchdog timeout. -/
inductive Level where
  | risingEdge
  | fallingEdge
  | timeout
deriving Repr, DecidableEq

/-- The self._car_info dictionary: the telemetry record with its five keys. -/
structure CarInfo where
  steeringSignal : ℚ
  motorSignal : ℚ
  reward : ℚ
  carSpeed : ℚ
  done : Bool
deriving Repr, DecidableEq

/-- The mutable state of a RacingCar instance that the claims concern:
the telemetry record self._car_info and the encoder pulse accumulator
self._encoder_pulse_count. -/
structure CarState where
  carInfo : CarInfo
  encoderPulseCount : ℕ
deriving Repr, DecidableEq

/-- The telemetry record as __init__ builds it: all signals, reward and
speed zero, done false. -/
def initialCarInfo : CarInfo :=
  { steeringSignal := 0, motorSignal := 0, reward := 0, carSpeed := 0, done := false }

/-- The state right after __init__: zeroed telemetry and
self._encoder_pulse_count = 0. -/
def initialState : CarState :=
  { carInfo := initialCarInfo, encoderPulseCount := 0 }

/-- One call to the external PWM interface:
self._pi.set_servo_pulsewidth(pin, pulsewidth). -/
structure PwmCommand where
  pin : ℕ
  pulsewidth : ℚ
deriving Repr, DecidableEq

/-- The module-level helper scale_range: a pure affine remap from the range
(old_min, old_max) to the range (new_min, new_max). -/
def scale_range (old_value old_min old_max new_min new_max : ℚ) : ℚ :=
  ((old_value - old_min) / (old_max - old_min)) * (new_max - new_min) + new_min

/-- RacingCar._update_pwm: converts the normalized steering and motor
signals into pulse widths and issues one PWM call per actuator channel,
in program order. -/
def update_pwm (steering_signal motor_signal : ℚ) : List PwmCommand :=
  [ { pin := STEERING_SERVO_PIN,
      pulsewidth := scale_range steering_signal (-1) 1 (1500 - SERVO_RANGE) (1500 + SERVO_RANGE) },
    { pin := MOTOR_PIN,
      pulsewidth := scale_range motor_signal (-1) 1 (1500 - MOTOR_RANGE) (1500 + MOTOR_RANGE) } ]

/-- RacingCar._interrupt_handle: the GPIO callback.  piQ stands for the
runtime value of np.pi; gpio and level are the first two callback
arguments, tick the (unused) timestamp.  Dispatch follows the if/elif
chain of the source literally: line sensor pins set done on any level,
the encoder pulse pin counts rising edges and on watchdog timeout turns
the accumulated count into a speed estimate and clears the accumulator,
and the lap marker pin adjusts the reward. -/
def interrupt_handle (piQ : ℚ) (s : CarState) (gpio : ℕ) (level : Level) (tick : ℕ) : CarState :=
  if gpio = LEFT_LINE_SENSOR_PIN ∨ gpio = RIGHT_LINE_SENSOR_PIN then
    { s with carInfo := { s.carInfo with done := true } }
  else if gpio = ENCODER_PUL_PIN then
    let s1 := if level = Level.risingEdge then
      { s with encoderPulseCount := s.encoderPulseCount + 1 } else s
    if level = Level.timeout then
      let dist := (s1.encoderPulseCount : ℚ) / ENCODER_LINE * piQ * TIRE_DIAMETER
      let t := SPEED_UPDATE_INTERVAL / 1000
      { carInfo := { s1.carInfo with carSpeed := dist / t * GEAR_RATIO },
        encoderPulseCount := 0 }
    else s1
  else if gpio = ENCODER_ZERO_PIN then
    let s1 := if level = Level.risingEdge then
      { s with carInfo := { s.carInfo with reward := s.carInfo.reward + 5 } } else s
    if level = Level.timeout then
      let r := s1.carInfo.reward - 1
      let d := if r < 0 then true else s1.carInfo.done
      { s1 with carInfo := { s1.carInfo with reward := r, done := d } }
    else s1
  else
    let _ := tick
    s

/-- The two assertion failures RacingCar.step can raise. -/
inductive StepError where
  | incorrectShape
  | incorrectValue
deriving Repr, DecidableEq

/-- The outcome of a successful step or reset call: the new object state,
the PWM calls issued during the call, and the returned reward, done flag
and info snapshot (the returned frame comes from the external camera and
carries no state, so it is not modelled). -/
structure StepResult where
  state : CarState
  pwm : List PwmCommand
  reward : ℚ
  done : Bool
  info : CarInfo
deriving Repr, DecidableEq

/-- RacingCar.step: asserts the action shape is (2,), asserts
action.max() <= 1, zeroes the command when the episode is done, attenuates
the motor signal by motor_limitation, records both signals into the
telemetry record, issues the PWM calls, and returns the telemetry
snapshot.  Both assertion failures happen before any mutation or PWM
call, which the embedding reflects by returning an error carrying
nothing. -/
def step (motor_limitation : ℚ) (s : CarState) (action : List ℚ) :
    Except StepError StepResult :=
  match action with
  | [a0, a1] =>
    if max a0 a1 ≤ 1 then
      let p := if s.carInfo.done then ((0 : ℚ), (0 : ℚ)) else (a0, a1)
      let steering_signal := p.1
      let motor_signal := p.2 * motor_limitation
      let carInfo := { s.carInfo with
        steeringSignal := steering_signal, motorSignal := motor_signal }
      Except.ok
        { state := { s with carInfo := carInfo },
          pwm := update_pwm steering_signal motor_signal,
          reward := carInfo.reward,
          done := carInfo.done,
          info := carInfo }
    else Except.error StepError.incorrectValue
  | _ => Except.error StepError.incorrectShape

/-- RacingCar.reset: issues the zero PWM command, rebuilds the telemetry
dictionary at its zero baseline, and returns the fresh snapshot.
self._encoder_pulse_count is not touched. -/
def reset (s : CarState) : StepResult :=
  { state := { s with carInfo := initialCarInfo },
    pwm := update_pwm 0 0,
    reward := initialCarInfo.reward,
    done := initialCarInfo.done,
    info := initialCarInfo }

end RacingCar

namespace RacingCar

/-- C7: scale_range maps the old-range endpoints exactly to the new-range
endpoints whenever the old endpoints differ, and is strictly increasing in
its value argument when both ranges are positively oriented. -/
theorem scale_range_endpoints_and_mono (oMin oMax nMin nMax : ℚ) (h : oMin ≠ oMax) :
    scale_range oMin oMin oMax nMin nMax = nMin ∧
    scale_range oMax oMin oMax nMin nMax = nMax ∧
    (oMin < oMax → nMin < nMax → ∀ v1 v2 : ℚ, v1 < v2 →
      scale_range v1 oMin oMax nMin nMax < scale_range v2 oMin oMax nMin nMax) := by
  have hsub : oMax - oMin ≠ 0 := sub_ne_zero.mpr (Ne.symm h)
  refine ⟨by simp [scale_range], by simp [scale_range, div_self hsub], ?_⟩
  intro h1 h2 v1 v2 hv
  have hpos : 0 < oMax - oMin := sub_pos.mpr h1
  have hn : 0 < nMax - nMin := sub_pos.mpr h2
  have h3 : (v1 - oMin) / (oMax - oMin) < (v2 - oMin) / (oMax - oMin) :=
    (div_lt_div_iff_of_pos_right hpos).mpr (by linarith)
  have h4 := mul_lt_mul_of_pos_right h3 hn
  simpa [scale_range] using add_lt_add_right h4 nMin

theorem scale_range_endpoints_and_mono_witness :
    scale_range 1 0 2 10 14 < scale_range (3/2) 0 2 10 14 :=
  (scale_range_endpoints_and_mono 0 2 10 14 (by norm_num)).2.2 (by norm_num) (by norm_num)
    1 (3/2) (by norm_num)

/-- C8: with SERVO_RANGE = 200 the steering signals -1, 0, 1 become pulse
widths 1300, 1500, 1700 on the steering servo pin, and with
MOTOR_RANGE = 500 the motor signals -1, 0, 1 become pulse widths 1000,
1500, 2000 on the motor pin, whatever the other component of the
command. -/
theorem update_pwm_pulse_widths (st m : ℚ) :
    (update_pwm (-1) m).head? = some ⟨STEERING_SERVO_PIN, 1300⟩ ∧
    (update_pwm 0 m).head? = some ⟨STEERING_SERVO_PIN, 1500⟩ ∧
    (update_pwm 1 m).head? = some ⟨STEERING_SERVO_PIN, 1700⟩ ∧
    (update_pwm st (-1)).getLast? = some ⟨MOTOR_PIN, 1000⟩ ∧
    (update_pwm st 0).getLast? = some ⟨MOTOR_PIN, 1500⟩ ∧
    (update_pwm st 1).getLast? = some ⟨MOTOR_PIN, 2000⟩ := by
  refine ⟨?_, ?_, ?_, ?_, ?_, ?_⟩ <;>
    · simp [update_pwm, scale_range, SERVO_RANGE, MOTOR_RANGE]
      norm_num

/-- C3: handling a watchdog timeout on the encoder pulse pin stores
speed = (pulses / ENCODER_LINE * pi * TIRE_DIAMETER) / windowSeconds *
GEAR_RATIO with windowSeconds = 0.5, then clears the accumulator; with
512 pulses accumulated, the stored speed is the deterministic value the
formula gives at 512. -/
theorem encoder_timeout_speed (piQ : ℚ) (s : CarState) (tick : ℕ) :
    (interrupt_handle piQ s ENCODER_PUL_PIN Level.timeout tick).carInfo.carSpeed
      = ((s.encoderPulseCount : ℚ) / ENCODER_LINE * piQ * TIRE_DIAMETER)
          / (SPEED_UPDATE_INTERVAL / 1000) * GEAR_RATIO ∧
    (interrupt_handle piQ s ENCODER_PUL_PIN Level.timeout tick).encoderPulseCount = 0 ∧
    SPEED_UPDATE_INTERVAL / 1000 = 1 / 2 ∧
    (s.encoderPulseCount = 512 →
      (interrupt_handle piQ s ENCODER_PUL_PIN Level.timeout tick).carInfo.carSpeed
        = (512 / 512 * piQ * (5 / 100)) / (1 / 2) * (145 / 35)) := by
  refine ⟨?_, ?_, by norm_num [SPEED_UPDATE_INTERVAL], ?_⟩
  · simp [interrupt_handle, ENCODER_PUL_PIN, LEFT_LINE_SENSOR_PIN, RIGHT_LINE_SENSOR_PIN]
  · simp [interrupt_handle, ENCODER_PUL_PIN, LEFT_LINE_SENSOR_PIN, RIGHT_LINE_SENSOR_PIN]
  · intro h512
    simp [interrupt_handle, ENCODER_PUL_PIN, LEFT_LINE_SENSOR_PIN, RIGHT_LINE_SENSOR_PIN,
      h512, ENCODER_LINE, TIRE_DIAMETER, SPEED_UPDATE_INTERVAL, GEAR_RATIO]
    ring

/-- C4: a lap marker rising edge adds 5 to the reward; a lap marker
timeout subtracts 1 and latches done when the result is negative; hence
an edge then a timeout nets +4, and three timeouts from reward 0 end at
-3 with done set by the first one. -/
theorem lap_marker_reward (piQ : ℚ) (s : CarState) (tick : ℕ) :
    (interrupt_handle piQ s ENCODER_ZERO_PIN Level.risingEdge tick).carInfo.reward
      = s.carInfo.reward + 5 ∧
    (interrupt_handle piQ s ENCODER_ZERO_PIN Level.timeout tick).carInfo.reward
      = s.carInfo.reward - 1 ∧
    (s.carInfo.reward - 1 < 0 →
      (interrupt_handle piQ s ENCODER_ZERO_PIN Level.timeout tick).carInfo.done = true) ∧
    (interrupt_handle piQ (interrupt_handle piQ s ENCODER_ZERO_PIN Level.risingEdge tick)
        ENCODER_ZERO_PIN Level.timeout tick).carInfo.reward = s.carInfo.reward + 4 ∧
    (s.carInfo.reward = 0 →
      (interrupt_handle piQ s ENCODER_ZERO_PIN Level.timeout tick).carInfo.done = true ∧
      (interrupt_handle piQ (interrupt_handle piQ (interrupt_handle piQ s
          ENCODER_ZERO_PIN Level.timeout tick) ENCODER_ZERO_PIN Level.timeout tick)
          ENCODER_ZERO_PIN Level.timeout tick).carInfo.reward = -3 ∧
      (interrupt_handle piQ (interrupt_handle piQ (interrupt_handle piQ s
          ENCODER_ZERO_PIN Level.timeout tick) ENCODER_ZERO_PIN Level.timeout tick)
          ENCODER_ZERO_PIN Level.timeout tick).carInfo.done = true) := by
  refine ⟨?_, ?_, ?_, ?_, ?_⟩ <;>
    simp [interrupt_handle, ENCODER_ZERO_PIN, ENCODER_PUL_PIN, LEFT_LINE_SENSOR_PIN,
      RIGHT_LINE_SENSOR_PIN]
  · intro h; simp [h]
  · ring
  · intro h
    simp [h]
    norm_num

/-- C5: reset commands the neutral PWM pair, zeroes every telemetry
field, and returns reward 0, done false, with the returned info equal to
the new telemetry snapshot. -/
theorem reset_postcondition (s : CarState) :
    (reset s).pwm = update_pwm 0 0 ∧
    update_pwm 0 0 = [⟨STEERING_SERVO_PIN, 1500⟩, ⟨MOTOR_PIN, 1500⟩] ∧
    (reset s).state.carInfo
      = { steeringSignal := 0, motorSignal := 0, reward := 0, carSpeed := 0, done := false } ∧
    (reset s).reward = 0 ∧
    (reset s).done = false ∧
    (reset s).info = (reset s).state.carInfo := by
  refine ⟨rfl, ?_, rfl, rfl, rfl, rfl⟩
  simp [update_pwm, scale_range, SERVO_RANGE, MOTOR_RANGE]
  norm_num

/-- C6: reset leaves the encoder pulse accumulator untouched, no event
other than an encoder pulse pin timeout ever lowers it, and a timeout
arriving right after a reset therefore computes the first post-reset
speed from the pulses accumulated before the reset. -/
theorem reset_keeps_pulse_accumulator (piQ : ℚ) (s : CarState) (tick : ℕ) :
    (reset s).state.encoderPulseCount = s.encoderPulseCount ∧
    (∀ g l, ¬ (g = ENCODER_PUL_PIN ∧ l = Level.timeout) →
      s.encoderPulseCount ≤ (interrupt_handle piQ s g l tick).encoderPulseCount) ∧
    (interrupt_handle piQ (reset s).state ENCODER_PUL_PIN Level.timeout tick).carInfo.carSpeed
      = ((s.encoderPulseCount : ℚ) / ENCODER_LINE * piQ * TIRE_DIAMETER)
          / (SPEED_UPDATE_INTERVAL / 1000) * GEAR_RATIO := by
  refine ⟨rfl, ?_, ?_⟩
  · intro g l hgl
    by_cases h1 : g = LEFT_LINE_SENSOR_PIN ∨ g = RIGHT_LINE_SENSOR_PIN
    · simp [interrupt_handle, h1]
    · by_cases h2 : g = ENCODER_PUL_PIN
      · have hl : l ≠ Level.timeout := fun hc => hgl ⟨h2, hc⟩
        cases l
        · simp [interrupt_handle, h1, h2, ENCODER_PUL_PIN, ENCODER_ZERO_PIN,
            LEFT_LINE_SENSOR_PIN, RIGHT_LINE_SENSOR_PIN]
        · simp [interrupt_handle, h1, h2, ENCODER_PUL_PIN, ENCODER_ZERO_PIN,
            LEFT_LINE_SENSOR_PIN, RIGHT_LINE_SENSOR_PIN]
        · exact absurd rfl hl
      · by_cases h3 : g = ENCODER_ZERO_PIN
        · cases l <;> simp [interrupt_handle, h1, h2, h3, ENCODER_PUL_PIN, ENCODER_ZERO_PIN,
            LEFT_LINE_SENSOR_PIN, RIGHT_LINE_SENSOR_PIN]
        · simp [interrupt_handle, h1, h2, h3]
  · simp [interrupt_handle, reset, ENCODER_PUL_PIN, LEFT_LINE_SENSOR_PIN, RIGHT_LINE_SENSOR_PIN]

/-- C9: an event on a pin that is none of the two line sensor pins, the
encoder pulse pin or the lap marker pin leaves the state exactly as it
was, and so does a falling edge on the encoder pulse or lap marker pin
(the edge kind neither of those two branches reacts to; the line sensor
branch of the source reacts to every edge kind, so no combination on
those pins is unhandled); the handler is a total function, so no error
is raised. -/
theorem spurious_event_noop (piQ : ℚ) (s : CarState) (g : ℕ) (l : Level) (tick : ℕ) :
    (¬ (g = LEFT_LINE_SENSOR_PIN ∨ g = RIGHT_LINE_SENSOR_PIN ∨ g = ENCODER_PUL_PIN ∨
        g = ENCODER_ZERO_PIN) → interrupt_handle piQ s g l tick = s) ∧
    ((g = ENCODER_PUL_PIN ∨ g = ENCODER_ZERO_PIN) → l = Level.fallingEdge →
      interrupt_handle piQ s g l tick = s) := by
  constructor
  · intro hg
    push_neg at hg
    obtain ⟨hg1, hg2, hg3, hg4⟩ := hg
    simp [interrupt_handle, hg1, hg2, hg3, hg4]
  · rintro (hg | hg) hl <;> subst hl <;>
      simp [interrupt_handle, hg, ENCODER_PUL_PIN, ENCODER_ZERO_PIN, LEFT_LINE_SENSOR_PIN,
        RIGHT_LINE_SENSOR_PIN]

/-- C1: while done is latched, a step call that passes validation
commands the neutral zero actuation (pulse widths 1500, 1500), records
zero signals, and leaves done true; and no event the handler can receive
ever turns done back to false. -/
theorem done_latch (ml piQ : ℚ) (s : CarState) (a0 a1 : ℚ) (tick : ℕ)
    (hdone : s.carInfo.done = true) (hmax : max a0 a1 ≤ 1) :
    (∃ r, step ml s [a0, a1] = Except.ok r ∧
      r.pwm = update_pwm 0 0 ∧
      r.pwm = [⟨STEERING_SERVO_PIN, 1500⟩, ⟨MOTOR_PIN, 1500⟩] ∧
      r.state.carInfo.done = true ∧ r.done = true ∧
      r.state.carInfo.steeringSignal = 0 ∧ r.state.carInfo.motorSignal = 0) ∧
    (∀ g l, (interrupt_handle piQ s g l tick).carInfo.done = true) := by
  constructor
  · have hstep : step ml s [a0, a1] = Except.ok
        { state := { s with carInfo :=
            { s.carInfo with steeringSignal := 0, motorSignal := 0 } },
          pwm := update_pwm 0 0,
          reward := s.carInfo.reward,
          done := s.carInfo.done,
          info := { s.carInfo with steeringSignal := 0, motorSignal := 0 } } := by
      simp [step, hmax, hdone]
    refine ⟨_, hstep, rfl, ?_, hdone, hdone, rfl, rfl⟩
    simp [update_pwm, scale_range, SERVO_RANGE, MOTOR_RANGE]
    norm_num
  · intro g l
    by_cases h1 : g = LEFT_LINE_SENSOR_PIN ∨ g = RIGHT_LINE_SENSOR_PIN
    · simp [interrupt_handle, h1]
    · by_cases h2 : g = ENCODER_PUL_PIN
      · cases l <;> simp [interrupt_handle, h1, h2, hdone, ENCODER_PUL_PIN, ENCODER_ZERO_PIN,
          LEFT_LINE_SENSOR_PIN, RIGHT_LINE_SENSOR_PIN]
      · by_cases h3 : g = ENCODER_ZERO_PIN
        · cases l <;> simp [interrupt_handle, h1, h2, h3, hdone, ENCODER_PUL_PIN,
            ENCODER_ZERO_PIN, LEFT_LINE_SENSOR_PIN, RIGHT_LINE_SENSOR_PIN]
        · simp [interrupt_handle, h1, h2, h3, hdone]

theorem done_latch_witness :
    (interrupt_handle 3 ⟨⟨0, 0, 0, 0, true⟩, 0⟩ ENCODER_ZERO_PIN Level.timeout 0).carInfo.done
      = true :=
  (done_latch (6/10) 3 ⟨⟨0, 0, 0, 0, true⟩, 0⟩ 1 1 0 rfl (by norm_num)).2
    ENCODER_ZERO_PIN Level.timeout

/-- C2 counterexample: the action [-5, 0] has a component of magnitude
greater than 1, yet step accepts it from the freshly constructed state:
it returns ok, writes -5 into the telemetry steering field, and issues
two PWM calls, the steering one with pulse width 500. -/
theorem step_magnitude_not_checked_below :
    1 < |(-5 : ℚ)| ∧
    step (6/10) initialState [(-5 : ℚ), 0] = Except.ok
      { state := { carInfo := { steeringSignal := -5, motorSignal := 0, reward := 0,
                                carSpeed := 0, done := false },
                   encoderPulseCount := 0 },
        pwm := [⟨STEERING_SERVO_PIN, 500⟩, ⟨MOTOR_PIN, 1500⟩],
        reward := 0,
        done := false,
        info := { steeringSignal := -5, motorSignal := 0, reward := 0,
                  carSpeed := 0, done := false } } := by
  constructor
  · norm_num
  · simp [step, initialState, initialCarInfo, update_pwm, scale_range, SERVO_RANGE,
      MOTOR_RANGE, STEERING_SERVO_PIN, MOTOR_PIN]
    norm_num

/-- C2 amended: step raises the shape assertion for any action whose
length is not 2, and the value assertion for any two-element action whose
maximum component exceeds 1; in both cases the call fails before any
telemetry mutation or PWM call (the embedding returns an error carrying
no new state and no actuation). -/
theorem step_validation_checks (ml : ℚ) (s : CarState) (action : List ℚ) :
    (action.length ≠ 2 → step ml s action = Except.error StepError.incorrectShape) ∧
    (∀ a0 a1, action = [a0, a1] → 1 < max a0 a1 →
      step ml s action = Except.error StepError.incorrectValue) := by
  constructor
  · intro hlen
    rcases action with _ | ⟨a, _ | ⟨b, _ | ⟨c, t⟩⟩⟩
    · simp [step]
    · simp [step]
    · simp at hlen
    · simp [step]
  · rintro a0 a1 rfl hgt
    have hnot : ¬ (max a0 a1 ≤ 1) := not_le.mpr hgt
    simp [step, hnot]

/-- C10: any two-element action whose maximum component is at most 1
passes validation, even when a component lies below -1; in a live
episode the steering component and the attenuated throttle are recorded
verbatim and forwarded to the PWM encoder, and the concrete action
[-5, 0] yields a steering pulse width of 500, below the lower end
1500 - SERVO_RANGE = 1300 of the configured interval. -/
theorem step_accepts_below_lower_bound (ml : ℚ) (s : CarState) (a0 a1 : ℚ)
    (hmax : max a0 a1 ≤ 1) :
    (∃ r, step ml s [a0, a1] = Except.ok r) ∧
    (s.carInfo.done = false →
      ∃ r, step ml s [a0, a1] = Except.ok r ∧
        r.state.carInfo.steeringSignal = a0 ∧
        r.state.carInfo.motorSignal = a1 * ml ∧
        r.pwm = update_pwm a0 (a1 * ml)) ∧
    ((step (6/10) initialState [(-5 : ℚ), 0]).map (fun r => r.pwm)
        = Except.ok [⟨STEERING_SERVO_PIN, 500⟩, ⟨MOTOR_PIN, 1500⟩] ∧
      (500 : ℚ) < 1500 - SERVO_RANGE) := by
  refine ⟨?_, ?_, ?_, by norm_num [SERVO_RANGE]⟩
  · by_cases hdone : s.carInfo.done = true
    · have h : step ml s [a0, a1] = Except.ok
          { state := { s with carInfo :=
              { s.carInfo with steeringSignal := 0, motorSignal := 0 } },
            pwm := update_pwm 0 0,
            reward := s.carInfo.reward,
            done := s.carInfo.done,
            info := { s.carInfo with steeringSignal := 0, motorSignal := 0 } } := by
        simp [step, hmax, hdone]
      exact ⟨_, h⟩
    · have h : step ml s [a0, a1] = Except.ok
          { state := { s with carInfo :=
              { s.carInfo with steeringSignal := a0, motorSignal := a1 * ml } },
            pwm := update_pwm a0 (a1 * ml),
            reward := s.carInfo.reward,
            done := s.carInfo.done,
            info := { s.carInfo with steeringSignal := a0, motorSignal := a1 * ml } } := by
        simp [step, hmax, hdone]
      exact ⟨_, h⟩
  · intro hlive
    have hstep : step ml s [a0, a1] = Except.ok
        { state := { s with carInfo :=
            { s.carInfo with steeringSignal := a0, motorSignal := a1 * ml } },
          pwm := update_pwm a0 (a1 * ml),
          reward := s.carInfo.reward,
          done := s.carInfo.done,
          info := { s.carInfo with steeringSignal := a0, motorSignal := a1 * ml } } := by
      simp [step, hmax, hlive]
    exact ⟨_, hstep, rfl, rfl, rfl⟩
  · simp [step, initialState, initialCarInfo, update_pwm, scale_range, SERVO_RANGE,
      MOTOR_RANGE, STEERING_SERVO_PIN, MOTOR_PIN, Except.map]
    norm_num

theorem step_accepts_below_lower_bound_witness :
    ∃ r, step (6/10) initialState [(-5 : ℚ), 0] = Except.ok r :=
  (step_accepts_below_lower_bound (6/10) initialState (-5) 0 (by norm_num)).1

end RacingCar
